import Mathlib

/-!
Shallow embedding of `src/db.rs` from the `ttsticker_bot` repository: a
Redis-backed store for per-chat sticker aliases and per-(chat, user)
dialogue state.

The Redis backend is modelled as a function from key and field to an
optional stored string.  Every remote call takes an extra `fail`
parameter injecting a possible transport failure, so that both the
success and the failure branches of the Rust code are reachable in the
model.  Serialization (`serde_json`) is passed in as explicit
`ser`/`de` functions.  Rust's `i64::to_string` is embedded as
`i64_to_string`, the usual div/mod-10 digit algorithm.
-/

/-- One decimal digit character, as produced by the digit printer. -/
def digitChar10 (n : Nat) : Char := Nat.digitChar n

/-- Little-endian decimal digits of `n`, with explicit fuel (the
recursion divides by 10 each step, so fuel `n + 1` always suffices). -/
def natDigitsRevFuel : Nat → Nat → List Char
  | 0, _ => []
  | fuel + 1, n =>
    if n < 10 then [digitChar10 n]
    else digitChar10 (n % 10) :: natDigitsRevFuel fuel (n / 10)

/-- Little-endian decimal digits of `n`. -/
def natDigitsRev (n : Nat) : List Char := natDigitsRevFuel (n + 1) n

/-- Embedding of Rust `i64::to_string`: optional minus sign followed by
the decimal digits, most significant first. -/
def i64_to_string (i : Int) : String :=
  if i < 0 then ⟨'-' :: (natDigitsRev (-i).toNat).reverse⟩
  else ⟨(natDigitsRev i.toNat).reverse⟩

/-- `get_chat_key` from `db.rs`: `format!("chat:{}", chat_id)`. -/
def get_chat_key (chat_id : Int) : String := "chat:" ++ i64_to_string chat_id

/-- `get_aliases_key` from `db.rs`: chat key with `"aliases"` appended. -/
def get_aliases_key (chat_id : Int) : String := get_chat_key chat_id ++ "aliases"

/-- `get_dialogues_key` from `db.rs`: chat key with `"dialogues"` appended. -/
def get_dialogues_key (chat_id : Int) : String := get_chat_key chat_id ++ "dialogues"

/-- `get_from_field` from `db.rs`: decimal form of the user id, or the
sentinel `"NO_ID"` when absent. -/
def get_from_field (from_id : Option Int) : String :=
  (from_id.map i64_to_string).getD "NO_ID"

/-- Decode a little-endian digit list back to the number it encodes. -/
def decodeRev : List Char → Nat
  | [] => 0
  | c :: cs => (c.toNat - 48) + 10 * decodeRev cs

/-- Abstract error of the `redis` crate.  `ioError` stands for a failed
remote operation; `typeError` is the conversion failure the crate
produces when a nil reply is converted to `String` (relevant to
`get_sticker_id`, whose `RedisResult<String>` turns an absent field
into an error). -/
inductive RedisError where
  | ioError (msg : String) : RedisError
  | typeError : RedisError
deriving DecidableEq, Repr

/-- Display of a redis error, used only inside log messages. -/
def RedisError.describe : RedisError → String
  | .ioError m => m
  | .typeError => "Response was of incompatible type"

/-- Abstract `serde_json::Error`. -/
inductive SerdeJsonError where
  | mk (msg : String) : SerdeJsonError
deriving DecidableEq, Repr

/-- Display of a serde error, used only inside log messages. -/
def SerdeJsonError.describe : SerdeJsonError → String
  | .mk m => m

/-- `RedisStorageError` from `db.rs`. -/
inductive RedisStorageError where
  | SerdeError (e : SerdeJsonError) : RedisStorageError
  | RedisError (e : RedisError) : RedisStorageError
  | DialogueNotFound : RedisStorageError
deriving DecidableEq, Repr

/-- The redis database: key → field → optionally stored string. -/
def Store : Type := String → String → Option String

/-- Effect of a successful `HSET key field value` on the database. -/
def Store.hset (s : Store) (key field value : String) : Store :=
  fun k f => if k = key ∧ f = field then some value else s k f

/-- Effect of a successful `HDEL key field` on the database. -/
def Store.hdel (s : Store) (key field : String) : Store :=
  fun k f => if k = key ∧ f = field then none else s k f

/-- The empty database, used to instantiate theorems at concrete
inputs. -/
def emptyStore : Store := fun _ _ => none

/-- The remote `hset` call; `fail` injects a transport failure, in which
case the database is untouched. -/
def redisHset (s : Store) (key field value : String) (fail : Option RedisError) :
    Except RedisError Store :=
  match fail with
  | some e => Except.error e
  | none => Except.ok (s.hset key field value)

/-- The remote `hget` call at result type `Option<String>` (used by
`get_dialogue`): an absent field is `Ok(None)`. -/
def redisHgetOpt (s : Store) (key field : String) (fail : Option RedisError) :
    Except RedisError (Option String) :=
  match fail with
  | some e => Except.error e
  | none => Except.ok (s key field)

/-- The remote `hget` call at result type `String` (used by
`get_sticker_id`): an absent field yields a nil reply, which the redis
crate fails to convert to `String`, so it surfaces as an error. -/
def redisHgetString (s : Store) (key field : String) (fail : Option RedisError) :
    Except RedisError String :=
  match fail with
  | some e => Except.error e
  | none =>
    match s key field with
    | some v => Except.ok v
    | none => Except.error RedisError.typeError

/-- The remote `hdel` call, returning the number of deleted fields
(0 or 1) together with the new database. -/
def redisHdel (s : Store) (key field : String) (fail : Option RedisError) :
    Except RedisError (Int × Store) :=
  match fail with
  | some e => Except.error e
  | none => Except.ok (if (s key field).isSome then 1 else 0, s.hdel key field)

/-- Modelled from the spec: `format_log_chat` lives in `src/logs.rs`,
which is not part of the provided sources.  The spec says every log
line is human-readable and always includes the chat id, so the model
prepends the chat id to the message. -/
def format_log_chat (msg : String) (chat_id : Int) : String :=
  "Chat " ++ i64_to_string chat_id ++ ": " ++ msg

/-- `set_alias` from `db.rs`.  Returns unit to the caller (errors are
swallowed), the database after the call, and the emitted log lines. -/
def set_alias (s : Store) (chat_id : Int) (al sticker_id : String)
    (fail : Option RedisError) : Unit × Store × List String :=
  let key := get_aliases_key chat_id
  match redisHset s key al sticker_id fail with
  | Except.ok s1 =>
    ((), s1, [format_log_chat ("Saved alias " ++ al ++ " for " ++ sticker_id) chat_id])
  | Except.error e =>
    ((), s, [format_log_chat ("Failed to save alias to DB: " ++ e.describe) chat_id])

/-- `set_aliases` from `db.rs`: `set_alias` for each alias in order,
all with the same sticker id.  `fails` injects a possible transport
failure per alias (`none` entries and missing entries mean success). -/
def set_aliases (s : Store) (chat_id : Int) (als : List String)
    (sticker_id : String) (fails : List (Option RedisError)) :
    Unit × Store × List String :=
  match als with
  | [] => ((), s, [])
  | a :: rest =>
    let r1 := set_alias s chat_id a sticker_id (fails.headD none)
    let r2 := set_aliases r1.2.1 chat_id rest sticker_id fails.tail
    ((), r2.2.1, r1.2.2 ++ r2.2.2)

/-- `get_sticker_id` from `db.rs`: reads the alias field as a `String`;
both an absent field and a failed read come back as `None`. -/
def get_sticker_id (s : Store) (chat_id : Int) (al : String)
    (fail : Option RedisError) : Option String × Store × List String :=
  let key := get_aliases_key chat_id
  match redisHgetString s key al fail with
  | Except.ok sticker_id =>
    (some sticker_id, s,
      [format_log_chat ("Retrieved " ++ sticker_id ++ " by alias " ++ al) chat_id])
  | Except.error e =>
    (none, s,
      [format_log_chat ("Failed find alias " ++ al ++ " in DB: " ++ e.describe) chat_id])

/-- `remove_alias` from `db.rs`: deletes the alias field; the delete
count is ignored, errors are swallowed. -/
def remove_alias (s : Store) (chat_id : Int) (al : String)
    (fail : Option RedisError) : Unit × Store × List String :=
  let key := get_aliases_key chat_id
  match redisHdel s key al fail with
  | Except.ok r => ((), r.2, [format_log_chat ("Removed alias " ++ al) chat_id])
  | Except.error e =>
    ((), s, [format_log_chat ("Failed to remove alias from DB: " ++ e.describe) chat_id])

/-- `update_dialogue` from `db.rs`: serialize (caller-supplied `ser`
stands for `serde_json::to_string`), then `hset` into the dialogue
hash; serialization failure returns before any store call. -/
def update_dialogue {D : Type} (ser : D → Except SerdeJsonError String)
    (s : Store) (chat_id : Int) (from_id : Option Int) (dialogue : D)
    (fail : Option RedisError) :
    Except RedisStorageError Unit × Store × List String :=
  let key := get_dialogues_key chat_id
  let field := get_from_field from_id
  match ser dialogue with
  | Except.error err =>
    (Except.error (RedisStorageError.SerdeError err), s,
      [format_log_chat ("Failed to serialize dialogue: " ++ err.describe) chat_id])
  | Except.ok value =>
    match redisHset s key field value fail with
    | Except.ok s1 =>
      (Except.ok (), s1, [format_log_chat ("Saved dialogue for " ++ field) chat_id])
    | Except.error err =>
      (Except.error (RedisStorageError.RedisError err), s,
        [format_log_chat ("Failed to save dialogue to DB: " ++ err.describe) chat_id])

/-- `get_dialogue` from `db.rs`: `hget` at `Option<String>`, then
deserialize (caller-supplied `de` stands for `serde_json::from_str`).
The function emits no log line. -/
def get_dialogue {D : Type} (de : String → Except SerdeJsonError D)
    (s : Store) (chat_id : Int) (from_id : Option Int)
    (fail : Option RedisError) :
    Except RedisStorageError (Option D) × Store × List String :=
  let key := get_dialogues_key chat_id
  let field := get_from_field from_id
  match redisHgetOpt s key field fail with
  | Except.error e => (Except.error (RedisStorageError.RedisError e), s, [])
  | Except.ok none => (Except.ok none, s, [])
  | Except.ok (some v) =>
    match de v with
    | Except.ok d => (Except.ok (some d), s, [])
    | Except.error e => (Except.error (RedisStorageError.SerdeError e), s, [])

/-- `remove_dialogue` from `db.rs`: `hdel` of the user's field; a
delete count of zero is the dedicated `DialogueNotFound` error.  The
function emits no log line. -/
def remove_dialogue (s : Store) (chat_id : Int) (from_id : Option Int)
    (fail : Option RedisError) :
    Except RedisStorageError Unit × Store × List String :=
  let key := get_dialogues_key chat_id
  let field := get_from_field from_id
  match redisHdel s key field fail with
  | Except.error e => (Except.error (RedisStorageError.RedisError e), s, [])
  | Except.ok r =>
    if r.1 = 0 then (Except.error RedisStorageError.DialogueNotFound, r.2, [])
    else (Except.ok (), r.2, [])

theorem digitChar10_toNat (m : Nat) (h : m < 10) : (digitChar10 m).toNat - 48 = m := by
  interval_cases m <;> decide

theorem digitChar10_isDigit (m : Nat) (h : m < 10) : (digitChar10 m).isDigit = true := by
  interval_cases m <;> decide

theorem decodeRev_natDigitsRevFuel (fuel n : Nat) (h : n < fuel) :
    decodeRev (natDigitsRevFuel fuel n) = n := by
  induction fuel generalizing n with
  | zero => omega
  | succ fuel ih =>
    by_cases h10 : n < 10
    · simp [natDigitsRevFuel, h10, decodeRev, digitChar10_toNat n h10]
    · have hlt : n / 10 < fuel := by
        have := Nat.div_lt_self (by omega : 0 < n) (by omega : 1 < 10)
        omega
      simp only [natDigitsRevFuel, if_neg h10, decodeRev]
      rw [ih (n / 10) hlt, digitChar10_toNat (n % 10) (Nat.mod_lt n (by omega))]
      omega

theorem decodeRev_natDigitsRev (n : Nat) : decodeRev (natDigitsRev n) = n :=
  decodeRev_natDigitsRevFuel (n + 1) n (Nat.lt_succ_self n)

theorem natDigitsRev_injective : Function.Injective natDigitsRev := by
  intro a b h
  have := congrArg decodeRev h
  rwa [decodeRev_natDigitsRev, decodeRev_natDigitsRev] at this

theorem mem_natDigitsRevFuel_isDigit (fuel n : Nat) (c : Char)
    (h : c ∈ natDigitsRevFuel fuel n) : c.isDigit = true := by
  induction fuel generalizing n with
  | zero => simp [natDigitsRevFuel] at h
  | succ fuel ih =>
    by_cases h10 : n < 10
    · simp [natDigitsRevFuel, h10] at h
      subst h
      exact digitChar10_isDigit n h10
    · simp [natDigitsRevFuel, h10] at h
      rcases h with h | h
      · subst h
        exact digitChar10_isDigit (n % 10) (Nat.mod_lt n (by omega))
      · exact ih (n / 10) h

theorem mem_natDigitsRev_isDigit (n : Nat) (c : Char)
    (h : c ∈ natDigitsRev n) : c.isDigit = true :=
  mem_natDigitsRevFuel_isDigit (n + 1) n c h

/-- The data of `i64_to_string` never contains the minus sign past a
digit position; in particular `'-'` is a member only for negatives,
and every member is a digit or `'-'`. -/
theorem i64_to_string_mem (i : Int) (c : Char) (h : c ∈ (i64_to_string i).data) :
    c.isDigit = true ∨ c = '-' := by
  by_cases hneg : i < 0
  · simp only [i64_to_string, if_pos hneg] at h
    rcases List.mem_cons.mp h with h | h
    · exact Or.inr h
    · exact Or.inl (mem_natDigitsRev_isDigit _ c (List.mem_reverse.mp h))
  · simp only [i64_to_string, if_neg hneg] at h
    exact Or.inl (mem_natDigitsRev_isDigit _ c (List.mem_reverse.mp h))

theorem i64_to_string_injective : Function.Injective i64_to_string := by
  intro a b h
  have hd := congrArg String.data h
  by_cases ha : a < 0 <;> by_cases hb : b < 0
  · simp only [i64_to_string, if_pos ha, if_pos hb, List.cons.injEq, true_and] at hd
    have := natDigitsRev_injective (List.reverse_injective hd)
    omega
  · exfalso
    simp only [i64_to_string, if_pos ha, if_neg hb] at hd
    have hmem : '-' ∈ (natDigitsRev b.toNat).reverse := hd ▸ List.mem_cons_self _ _
    have := mem_natDigitsRev_isDigit _ '-' (List.mem_reverse.mp hmem)
    simp [Char.isDigit] at this
  · exfalso
    simp only [i64_to_string, if_neg ha, if_pos hb] at hd
    have hmem : '-' ∈ (natDigitsRev a.toNat).reverse := hd.symm ▸ List.mem_cons_self _ _
    have := mem_natDigitsRev_isDigit _ '-' (List.mem_reverse.mp hmem)
    simp [Char.isDigit] at this
  · simp only [i64_to_string, if_neg ha, if_neg hb] at hd
    have := natDigitsRev_injective (List.reverse_injective hd)
    omega

/-- The sentinel field name is not the decimal form of any integer. -/
theorem no_id_ne_i64_to_string (x : Int) : "NO_ID" ≠ i64_to_string x := by
  intro h
  have hmem : 'N' ∈ (i64_to_string x).data := by
    rw [← h]; decide
  rcases i64_to_string_mem x 'N' hmem with hd | hd
  · simp [Char.isDigit] at hd
  · simp at hd

theorem append_aliases_ne_append_dialogues (l1 l2 : List Char) :
    l1 ++ "aliases".data ≠ l2 ++ "dialogues".data := by
  intro h
  have h2 := congrArg List.reverse h
  rw [List.reverse_append, List.reverse_append] at h2
  have e1 : "aliases".data.reverse = ['s', 'e', 's', 'a', 'i', 'l', 'a'] := rfl
  have e2 : "dialogues".data.reverse = ['s', 'e', 'u', 'g', 'o', 'l', 'a', 'i', 'd'] := rfl
  rw [e1, e2] at h2
  simp only [List.cons_append, List.nil_append, List.cons.injEq] at h2
  exact absurd h2.2.2.1 (by decide)

theorem get_aliases_key_injective : Function.Injective get_aliases_key := by
  intro a b h
  have hd := congrArg String.data h
  simp only [get_aliases_key, get_chat_key, String.data_append, List.append_assoc] at hd
  have h1 := List.append_cancel_left hd
  have h2 := List.append_cancel_right h1
  exact i64_to_string_injective (String.ext h2)

theorem get_dialogues_key_injective : Function.Injective get_dialogues_key := by
  intro a b h
  have hd := congrArg String.data h
  simp only [get_dialogues_key, get_chat_key, String.data_append, List.append_assoc] at hd
  have h1 := List.append_cancel_left hd
  have h2 := List.append_cancel_right h1
  exact i64_to_string_injective (String.ext h2)

theorem get_aliases_key_ne_get_dialogues_key (c1 c2 : Int) :
    get_aliases_key c1 ≠ get_dialogues_key c2 := by
  intro h
  have hd := congrArg String.data h
  simp only [get_aliases_key, get_dialogues_key, get_chat_key, String.data_append,
    List.append_assoc] at hd
  exact append_aliases_ne_append_dialogues _ _ (List.append_cancel_left hd)

/-- C1: key derivation is collision-free — for chat ids `c1 ≠ c2` the four
derived keys are pairwise distinct, and for any single chat the alias key
differs from the dialogue key. -/
theorem key_derivation_collision_free (c1 c2 : Int) (h : c1 ≠ c2) :
    get_aliases_key c1 ≠ get_aliases_key c2 ∧
    get_dialogues_key c1 ≠ get_dialogues_key c2 ∧
    get_aliases_key c1 ≠ get_dialogues_key c2 ∧
    get_aliases_key c2 ≠ get_dialogues_key c1 ∧
    ∀ c : Int, get_aliases_key c ≠ get_dialogues_key c :=
  ⟨fun he => h (get_aliases_key_injective he),
   fun he => h (get_dialogues_key_injective he),
   get_aliases_key_ne_get_dialogues_key c1 c2,
   get_aliases_key_ne_get_dialogues_key c2 c1,
   fun c => get_aliases_key_ne_get_dialogues_key c c⟩

/-- Witness for C1 at the concrete chat ids 1 and 2. -/
theorem key_derivation_collision_free_witness :
    (1 : Int) ≠ 2 ∧ get_aliases_key 1 = "chat:1aliases" ∧
      get_aliases_key 1 ≠ get_aliases_key 2 := by
  have h : (1 : Int) ≠ 2 := by decide
  exact ⟨h, rfl, (key_derivation_collision_free 1 2 h).1⟩

theorem get_from_field_injective : Function.Injective get_from_field := by
  intro u1 u2 heq
  simp only [get_from_field] at heq
  rcases u1 with _ | x <;> rcases u2 with _ | y
  · rfl
  · exact absurd heq (no_id_ne_i64_to_string y)
  · exact absurd heq.symm (no_id_ne_i64_to_string x)
  · exact congrArg some (i64_to_string_injective heq)

/-- C7: the field derived from an optional user id is the sentinel
`"NO_ID"` for `none` and the decimal string for `some`; the sentinel is
never a decimal string, distinct optional ids give distinct fields, and a
dialogue write for one user leaves every other user's dialogue read in
the same chat unchanged. -/
theorem from_field_separation :
    get_from_field none = "NO_ID" ∧
    (∀ x : Int, get_from_field (some x) = i64_to_string x) ∧
    (∀ x : Int, "NO_ID" ≠ i64_to_string x) ∧
    (∀ u1 u2 : Option Int, u1 ≠ u2 → get_from_field u1 ≠ get_from_field u2) ∧
    (∀ (D : Type) (ser : D → Except SerdeJsonError String)
       (de : String → Except SerdeJsonError D) (s : Store) (c : Int)
       (u1 u2 : Option Int) (d : D), u1 ≠ u2 →
       (get_dialogue de (update_dialogue ser s c u1 d none).2.1 c u2 none).1 =
         (get_dialogue de s c u2 none).1) := by
  refine ⟨rfl, fun x => rfl, no_id_ne_i64_to_string,
    fun u1 u2 hne heq => hne (get_from_field_injective heq), ?_⟩
  intro D ser de s c u1 u2 d hne
  have hf2 : get_from_field u2 ≠ get_from_field u1 :=
    fun hcc => hne (get_from_field_injective hcc).symm
  cases hser : ser d with
  | error e => simp [update_dialogue, hser]
  | ok v =>
    have hstore : Store.hset s (get_dialogues_key c) (get_from_field u1) v
        (get_dialogues_key c) (get_from_field u2) =
        s (get_dialogues_key c) (get_from_field u2) := by
      simp [Store.hset, hf2]
    simp only [update_dialogue, hser, redisHset, get_dialogue, redisHgetOpt, hstore]
    rcases s (get_dialogues_key c) (get_from_field u2) with _ | w
    · rfl
    · cases hde : de w <;> simp [hde]

/-- Witness for C7 at users 1 and 2 and the no-user placeholder. -/
theorem from_field_separation_witness :
    (some (1 : Int) ≠ some 2) ∧ get_from_field (some 1) ≠ get_from_field (some 2) ∧
      get_from_field (some 1) = "1" ∧ get_from_field none = "NO_ID" := by
  have h : some (1 : Int) ≠ some 2 := by decide
  exact ⟨h, from_field_separation.2.2.2.1 (some 1) (some 2) h, rfl, rfl⟩

/-- C2: `get_dialogue` returns `Ok none` when the derived field is
absent, `Ok (some v)` when the stored text deserializes to `v`, the
serde-tagged error when the stored text does not deserialize, and the
redis-tagged error when the underlying read itself fails. -/
theorem get_dialogue_cases (D : Type) (de : String → Except SerdeJsonError D)
    (s : Store) (c : Int) (u : Option Int) :
    (s (get_dialogues_key c) (get_from_field u) = none →
      (get_dialogue de s c u none).1 = Except.ok none) ∧
    (∀ v d, s (get_dialogues_key c) (get_from_field u) = some v →
      de v = Except.ok d → (get_dialogue de s c u none).1 = Except.ok (some d)) ∧
    (∀ v e, s (get_dialogues_key c) (get_from_field u) = some v →
      de v = Except.error e →
      (get_dialogue de s c u none).1 = Except.error (RedisStorageError.SerdeError e)) ∧
    (∀ e, (get_dialogue de s c u (some e)).1 =
      Except.error (RedisStorageError.RedisError e)) := by
  refine ⟨?_, ?_, ?_, ?_⟩
  · intro h; simp [get_dialogue, redisHgetOpt, h]
  · intro v d hv hd; simp [get_dialogue, redisHgetOpt, hv, hd]
  · intro v e hv hd; simp [get_dialogue, redisHgetOpt, hv, hd]
  · intro e; simp [get_dialogue, redisHgetOpt]

/-- Witness for C2: on the empty database the dialogue field is absent
and `get_dialogue` returns `Ok none`. -/
theorem get_dialogue_cases_witness :
    emptyStore (get_dialogues_key 0) (get_from_field none) = none ∧
    (get_dialogue (fun _ => Except.ok (0 : Nat)) emptyStore 0 none none).1 =
      Except.ok none := by
  have h : emptyStore (get_dialogues_key 0) (get_from_field none) = none := rfl
  exact ⟨h, (get_dialogue_cases Nat (fun _ => Except.ok 0) emptyStore 0 none).1 h⟩

/-- C3: `update_dialogue` returns the serde-tagged error and leaves the
database untouched when serialization fails; when serialization
succeeds it writes the serialized text into the derived field of the
chat's dialogue hash and returns `Ok ()`, or the redis-tagged error on
a failed write (the database then untouched). -/
theorem update_dialogue_cases (D : Type) (ser : D → Except SerdeJsonError String)
    (s : Store) (c : Int) (u : Option Int) (d : D) :
    (∀ e, ser d = Except.error e → ∀ fail,
      (update_dialogue ser s c u d fail).1 =
          Except.error (RedisStorageError.SerdeError e) ∧
      (update_dialogue ser s c u d fail).2.1 = s) ∧
    (∀ v, ser d = Except.ok v →
      ((update_dialogue ser s c u d none).1 = Except.ok () ∧
       (update_dialogue ser s c u d none).2.1 =
         s.hset (get_dialogues_key c) (get_from_field u) v) ∧
      (∀ e, (update_dialogue ser s c u d (some e)).1 =
          Except.error (RedisStorageError.RedisError e) ∧
        (update_dialogue ser s c u d (some e)).2.1 = s)) := by
  constructor
  · intro e he fail
    constructor <;> simp [update_dialogue, he]
  · intro v hv
    refine ⟨⟨?_, ?_⟩, fun e => ⟨?_, ?_⟩⟩ <;> simp [update_dialogue, hv, redisHset]

/-- Witness for C3: a failing serializer yields the serde error and the
empty database is unchanged; a succeeding one writes the text. -/
theorem update_dialogue_cases_witness :
    ((fun _ : Nat =>
        (Except.error (SerdeJsonError.mk "boom") : Except SerdeJsonError String))
        0 = Except.error (SerdeJsonError.mk "boom")) ∧
    (update_dialogue (fun _ : Nat =>
        (Except.error (SerdeJsonError.mk "boom") : Except SerdeJsonError String))
        emptyStore 0 none 0 none).1 =
      Except.error (RedisStorageError.SerdeError (SerdeJsonError.mk "boom")) := by
  have h : (fun _ : Nat =>
      (Except.error (SerdeJsonError.mk "boom") : Except SerdeJsonError String))
      0 = Except.error (SerdeJsonError.mk "boom") := rfl
  exact ⟨h, ((update_dialogue_cases Nat _ emptyStore 0 none 0).1
    (SerdeJsonError.mk "boom") h none).1⟩

/-- C4: `remove_dialogue` returns `Ok ()` exactly when the underlying
delete succeeds with positive count, `DialogueNotFound` exactly on a
zero count, and the redis-tagged error when the delete itself fails. -/
theorem remove_dialogue_cases (s : Store) (c : Int) (u : Option Int) :
    (∀ (n : Int) (s1 : Store),
      redisHdel s (get_dialogues_key c) (get_from_field u) none = Except.ok (n, s1) →
      ((remove_dialogue s c u none).1 = Except.ok () ↔ 0 < n) ∧
      ((remove_dialogue s c u none).1 =
          Except.error RedisStorageError.DialogueNotFound ↔ n = 0)) ∧
    (∀ e, (remove_dialogue s c u (some e)).1 =
      Except.error (RedisStorageError.RedisError e)) := by
  constructor
  · intro n s1 hn
    have hn01 : n = 0 ∨ n = 1 := by
      simp only [redisHdel, Except.ok.injEq, Prod.mk.injEq] at hn
      rcases hn with ⟨hn1, -⟩
      split at hn1 <;> omega
    simp only [remove_dialogue, hn]
    rcases hn01 with rfl | rfl <;> simp
  · intro e; simp [remove_dialogue, redisHdel]

/-- Witness for C4: on the empty database the delete count is zero and
`remove_dialogue` returns `DialogueNotFound`. -/
theorem remove_dialogue_cases_witness :
    redisHdel emptyStore (get_dialogues_key 0) (get_from_field none) none =
      Except.ok (0, emptyStore.hdel (get_dialogues_key 0) (get_from_field none)) ∧
    (remove_dialogue emptyStore 0 none none).1 =
      Except.error RedisStorageError.DialogueNotFound := by
  have h : redisHdel emptyStore (get_dialogues_key 0) (get_from_field none) none =
      Except.ok (0, emptyStore.hdel (get_dialogues_key 0) (get_from_field none)) := rfl
  exact ⟨h, ((remove_dialogue_cases emptyStore 0 none).1 0 _ h).2.mpr rfl⟩

/-- C6: `get_sticker_id` returns the stored value when the alias field
is present and the read succeeds, and returns `none` both when the
field is absent and when the read fails. -/
theorem get_sticker_id_cases (s : Store) (c : Int) (al : String) :
    (∀ v, s (get_aliases_key c) al = some v →
      (get_sticker_id s c al none).1 = some v) ∧
    (s (get_aliases_key c) al = none → (get_sticker_id s c al none).1 = none) ∧
    (∀ e, (get_sticker_id s c al (some e)).1 = none) := by
  refine ⟨?_, ?_, ?_⟩
  · intro v hv; simp [get_sticker_id, redisHgetString, hv]
  · intro h; simp [get_sticker_id, redisHgetString, h]
  · intro e; simp [get_sticker_id, redisHgetString]

/-- Witness for C6: the absent-field case on the empty database. -/
theorem get_sticker_id_cases_witness :
    emptyStore (get_aliases_key 0) "a" = none ∧
    (get_sticker_id emptyStore 0 "a" none).1 = none := by
  have h : emptyStore (get_aliases_key 0) "a" = none := rfl
  exact ⟨h, (get_sticker_id_cases emptyStore 0 "a").2.1 h⟩

theorem set_alias_logs_length (s : Store) (c : Int) (a st : String)
    (fail : Option RedisError) : (set_alias s c a st fail).2.2.length = 1 := by
  rcases fail with _ | e <;> rfl

theorem set_aliases_logs_length (c : Int) (st : String) :
    ∀ (als : List String) (s : Store) (fails : List (Option RedisError)),
      (set_aliases s c als st fails).2.2.length = als.length := by
  intro als
  induction als with
  | nil => intro s fails; rfl
  | cons a0 rest ih =>
    intro s fails
    simp [set_aliases, set_alias_logs_length, ih]
    omega

theorem set_aliases_mem_lookup (c : Int) (st : String) :
    ∀ (als : List String) (s : Store) (a : String),
      (a ∈ als ∨ s (get_aliases_key c) a = some st) →
      (set_aliases s c als st []).2.1 (get_aliases_key c) a = some st := by
  intro als
  induction als with
  | nil =>
    intro s a h
    rcases h with h | h
    · simp at h
    · simpa [set_aliases] using h
  | cons a0 rest ih =>
    intro s a h
    simp only [set_aliases, List.headD, List.tail, set_alias, redisHset]
    apply ih
    rcases h with h | h
    · rcases List.mem_cons.mp h with rfl | h2
      · right; simp [Store.hset]
      · left; exact h2
    · right
      simp only [Store.hset]
      split
      · rfl
      · exact h

/-- C5: alias operations never fail observably — `set_alias` and
`remove_alias` return unit whatever the underlying call does; and
`set_aliases` applies `set_alias` once per alias, in order, with the
same sticker id, a failure on one alias not preventing the attempts on
subsequent aliases. -/
theorem alias_ops_infallible :
    (∀ (s : Store) (c : Int) (a st : String) (fail : Option RedisError),
      (set_alias s c a st fail).1 = ()) ∧
    (∀ (s : Store) (c : Int) (a : String) (fail : Option RedisError),
      (remove_alias s c a fail).1 = ()) ∧
    (∀ (s : Store) (c : Int) (als : List String) (st : String)
       (fails : List (Option RedisError)),
      (set_aliases s c als st fails).2.2.length = als.length) ∧
    (∀ (s : Store) (c : Int) (a : String) (rest : List String) (st : String)
       (f : Option RedisError) (fs : List (Option RedisError)),
      set_aliases s c (a :: rest) st (f :: fs) =
        ((), (set_aliases (set_alias s c a st f).2.1 c rest st fs).2.1,
          (set_alias s c a st f).2.2 ++
            (set_aliases (set_alias s c a st f).2.1 c rest st fs).2.2)) ∧
    (∀ (s : Store) (c : Int) (als : List String) (st : String),
      ∀ a ∈ als, (set_aliases s c als st []).2.1 (get_aliases_key c) a = some st) :=
  ⟨fun _ _ _ _ _ => rfl,
   fun _ _ _ _ => rfl,
   fun s c als st fails => set_aliases_logs_length c st als s fails,
   fun _ _ _ _ _ _ _ => rfl,
   fun s c als st a ha => set_aliases_mem_lookup c st als s a (Or.inl ha)⟩

/-- Witness for C5: after `set_aliases` over `["a", "b"]`, the alias
`"a"` maps to the sticker id. -/
theorem alias_ops_infallible_witness :
    "a" ∈ ["a", "b"] ∧
    (set_aliases emptyStore 0 ["a", "b"] "X" []).2.1 (get_aliases_key 0) "a" =
      some "X" := by
  have h : "a" ∈ ["a", "b"] := by simp
  exact ⟨h, alias_ops_infallible.2.2.2.2 emptyStore 0 ["a", "b"] "X" "a" h⟩

/-- C8: dialogue round-trip — when the codec round-trips the value, a
successful `update_dialogue` followed by `get_dialogue` for the same
chat and user returns `Ok (some d)` with structural equality. -/
theorem dialogue_roundtrip (D : Type) (ser : D → Except SerdeJsonError String)
    (de : String → Except SerdeJsonError D) (s : Store) (c : Int) (u : Int)
    (d : D) (v : String) (hser : ser d = Except.ok v) (hde : de v = Except.ok d) :
    (update_dialogue ser s c (some u) d none).1 = Except.ok () ∧
    (get_dialogue de (update_dialogue ser s c (some u) d none).2.1
        c (some u) none).1 = Except.ok (some d) := by
  have h1 : (update_dialogue ser s c (some u) d none).2.1 =
      s.hset (get_dialogues_key c) (get_from_field (some u)) v := by
    simp [update_dialogue, hser, redisHset]
  constructor
  · simp [update_dialogue, hser, redisHset]
  · rw [h1]
    have hv : Store.hset s (get_dialogues_key c) (get_from_field (some u)) v
        (get_dialogues_key c) (get_from_field (some u)) = some v := by
      simp [Store.hset]
    simp [get_dialogue, redisHgetOpt, hv, hde]

/-- Witness for C8 with the identity codec on strings, chat 0, user 42. -/
theorem dialogue_roundtrip_witness :
    ((fun t : String => (Except.ok t : Except SerdeJsonError String)) "hello" =
      Except.ok "hello") ∧
    (get_dialogue (fun t : String => (Except.ok t : Except SerdeJsonError String))
        (update_dialogue (fun t : String => (Except.ok t : Except SerdeJsonError String))
          emptyStore 0 (some 42) "hello" none).2.1 0 (some 42) none).1 =
      Except.ok (some "hello") :=
  ⟨rfl, (dialogue_roundtrip String _ _ emptyStore 0 42 "hello" "hello" rfl rfl).2⟩

/-- C10: frame property — the reads modify nothing, and every write
changes at most the single addressed field, leaving every other field,
the other hash of the chat, and every other chat's keys unchanged. -/
theorem frame_property :
    (∀ (s : Store) (c : Int) (a : String) (fail : Option RedisError),
      (get_sticker_id s c a fail).2.1 = s) ∧
    (∀ (D : Type) (de : String → Except SerdeJsonError D) (s : Store) (c : Int)
       (u : Option Int) (fail : Option RedisError),
      (get_dialogue de s c u fail).2.1 = s) ∧
    (∀ (s : Store) (c : Int) (a st : String) (fail : Option RedisError) (k f : String),
      ¬(k = get_aliases_key c ∧ f = a) →
      (set_alias s c a st fail).2.1 k f = s k f) ∧
    (∀ (s : Store) (c : Int) (a : String) (fail : Option RedisError) (k f : String),
      ¬(k = get_aliases_key c ∧ f = a) →
      (remove_alias s c a fail).2.1 k f = s k f) ∧
    (∀ (D : Type) (ser : D → Except SerdeJsonError String) (s : Store) (c : Int)
       (u : Option Int) (d : D) (fail : Option RedisError) (k f : String),
      ¬(k = get_dialogues_key c ∧ f = get_from_field u) →
      (update_dialogue ser s c u d fail).2.1 k f = s k f) ∧
    (∀ (s : Store) (c : Int) (u : Option Int) (fail : Option RedisError) (k f : String),
      ¬(k = get_dialogues_key c ∧ f = get_from_field u) →
      (remove_dialogue s c u fail).2.1 k f = s k f) := by
  refine ⟨?_, ?_, ?_, ?_, ?_, ?_⟩
  · intro s c a fail
    rcases fail with _ | e
    · rcases hv : s (get_aliases_key c) a with _ | v <;>
        simp [get_sticker_id, redisHgetString, hv]
    · rfl
  · intro D de s c u fail
    rcases fail with _ | e
    · rcases hv : s (get_dialogues_key c) (get_from_field u) with _ | v
      · simp [get_dialogue, redisHgetOpt, hv]
      · rcases hd : de v with e2 | d2 <;> simp [get_dialogue, redisHgetOpt, hv, hd]
    · rfl
  · intro s c a st fail k f hkf
    rcases fail with _ | e
    · simp [set_alias, redisHset, Store.hset, hkf]
    · rfl
  · intro s c a fail k f hkf
    rcases fail with _ | e
    · simp [remove_alias, redisHdel, Store.hdel, hkf]
    · rfl
  · intro D ser s c u d fail k f hkf
    rcases hs : ser d with e2 | v
    · simp [update_dialogue, hs]
    · rcases fail with _ | e
      · simp [update_dialogue, hs, redisHset, Store.hset, hkf]
      · simp [update_dialogue, hs, redisHset]
  · intro s c u fail k f hkf
    rcases fail with _ | e
    · have hstep : (remove_dialogue s c u none).2.1 =
          s.hdel (get_dialogues_key c) (get_from_field u) := by
        simp only [remove_dialogue, redisHdel]
        split <;> rfl
      rw [hstep]
      simp [Store.hdel, hkf]
    · rfl

/-- Witness for C10: writing alias `"a"` in chat 0 leaves the unrelated
key-field pair `("x", "y")` unchanged. -/
theorem frame_property_witness :
    ¬("x" = get_aliases_key 0 ∧ "y" = "a") ∧
    (set_alias emptyStore 0 "a" "X" none).2.1 "x" "y" = emptyStore "x" "y" := by
  have h : ¬("x" = get_aliases_key 0 ∧ "y" = "a") := by
    rintro ⟨h1, -⟩
    exact absurd (congrArg String.length h1) (by decide)
  exact ⟨h, frame_property.2.2.1 emptyStore 0 "a" "X" none "x" "y" h⟩

/-- Counterexample to C9 as stated: `get_dialogue` and
`remove_dialogue` emit no log line at all, while the claim says every
public store operation emits exactly one. -/
theorem get_dialogue_emits_no_log :
    ¬((get_dialogue (fun t : String => (Except.ok t : Except SerdeJsonError String))
        emptyStore 0 none none).2.2.length = 1) ∧
    ¬((remove_dialogue emptyStore 0 none none).2.2.length = 1) := by
  constructor <;> decide

theorem format_log_chat_has_chat_id (msg : String) (c : Int) :
    ∃ pre post, format_log_chat msg c = pre ++ i64_to_string c ++ post :=
  ⟨"Chat ", ": " ++ msg, by rw [format_log_chat, String.append_assoc]⟩

/-- C9 (amended): `set_alias`, `get_sticker_id`, `remove_alias` and
`update_dialogue` emit exactly one log line per operation, and
`set_aliases` one per alias, each line containing the chat id; but
`get_dialogue` and `remove_dialogue` emit no log line. -/
theorem log_line_per_operation :
    (∀ (s : Store) (c : Int) (a st : String) (fail : Option RedisError),
      (set_alias s c a st fail).2.2.length = 1 ∧
      ∀ line ∈ (set_alias s c a st fail).2.2,
        ∃ pre post, line = pre ++ i64_to_string c ++ post) ∧
    (∀ (s : Store) (c : Int) (als : List String) (st : String)
       (fails : List (Option RedisError)),
      (set_aliases s c als st fails).2.2.length = als.length) ∧
    (∀ (s : Store) (c : Int) (a : String) (fail : Option RedisError),
      (get_sticker_id s c a fail).2.2.length = 1 ∧
      ∀ line ∈ (get_sticker_id s c a fail).2.2,
        ∃ pre post, line = pre ++ i64_to_string c ++ post) ∧
    (∀ (s : Store) (c : Int) (a : String) (fail : Option RedisError),
      (remove_alias s c a fail).2.2.length = 1 ∧
      ∀ line ∈ (remove_alias s c a fail).2.2,
        ∃ pre post, line = pre ++ i64_to_string c ++ post) ∧
    (∀ (D : Type) (ser : D → Except SerdeJsonError String) (s : Store) (c : Int)
       (u : Option Int) (d : D) (fail : Option RedisError),
      (update_dialogue ser s c u d fail).2.2.length = 1 ∧
      ∀ line ∈ (update_dialogue ser s c u d fail).2.2,
        ∃ pre post, line = pre ++ i64_to_string c ++ post) ∧
    (∀ (D : Type) (de : String → Except SerdeJsonError D) (s : Store) (c : Int)
       (u : Option Int) (fail : Option RedisError),
      (get_dialogue de s c u fail).2.2 = []) ∧
    (∀ (s : Store) (c : Int) (u : Option Int) (fail : Option RedisError),
      (remove_dialogue s c u fail).2.2 = []) := by
  refine ⟨?_, ?_, ?_, ?_, ?_, ?_, ?_⟩
  · intro s c a st fail
    rcases fail with _ | e
    · refine ⟨rfl, ?_⟩
      intro line hl
      simp only [set_alias, redisHset, List.mem_singleton] at hl
      rw [hl]; exact format_log_chat_has_chat_id _ c
    · refine ⟨rfl, ?_⟩
      intro line hl
      simp only [set_alias, redisHset, List.mem_singleton] at hl
      rw [hl]; exact format_log_chat_has_chat_id _ c
  · intro s c als st fails
    exact set_aliases_logs_length c st als s fails
  · intro s c a fail
    rcases fail with _ | e
    · rcases hv : s (get_aliases_key c) a with _ | v
      · refine ⟨by simp [get_sticker_id, redisHgetString, hv], ?_⟩
        intro line hl
        simp only [get_sticker_id, redisHgetString, hv, List.mem_singleton] at hl
        rw [hl]; exact format_log_chat_has_chat_id _ c
      · refine ⟨by simp [get_sticker_id, redisHgetString, hv], ?_⟩
        intro line hl
        simp only [get_sticker_id, redisHgetString, hv, List.mem_singleton] at hl
        rw [hl]; exact format_log_chat_has_chat_id _ c
    · refine ⟨rfl, ?_⟩
      intro line hl
      simp only [get_sticker_id, redisHgetString, List.mem_singleton] at hl
      rw [hl]; exact format_log_chat_has_chat_id _ c
  · intro s c a fail
    rcases fail with _ | e
    · refine ⟨rfl, ?_⟩
      intro line hl
      simp only [remove_alias, redisHdel, List.mem_singleton] at hl
      rw [hl]; exact format_log_chat_has_chat_id _ c
    · refine ⟨rfl, ?_⟩
      intro line hl
      simp only [remove_alias, redisHdel, List.mem_singleton] at hl
      rw [hl]; exact format_log_chat_has_chat_id _ c
  · intro D ser s c u d fail
    rcases hs : ser d with e2 | v
    · refine ⟨by simp [update_dialogue, hs], ?_⟩
      intro line hl
      simp only [update_dialogue, hs, List.mem_singleton] at hl
      rw [hl]; exact format_log_chat_has_chat_id _ c
    · rcases fail with _ | e
      · refine ⟨by simp [update_dialogue, hs, redisHset], ?_⟩
        intro line hl
        simp only [update_dialogue, hs, redisHset, List.mem_singleton] at hl
        rw [hl]; exact format_log_chat_has_chat_id _ c
      · refine ⟨by simp [update_dialogue, hs, redisHset], ?_⟩
        intro line hl
        simp only [update_dialogue, hs, redisHset, List.mem_singleton] at hl
        rw [hl]; exact format_log_chat_has_chat_id _ c
  · intro D de s c u fail
    rcases fail with _ | e
    · rcases hv : s (get_dialogues_key c) (get_from_field u) with _ | v
      · simp [get_dialogue, redisHgetOpt, hv]
      · rcases hd : de v with e2 | d2 <;> simp [get_dialogue, redisHgetOpt, hv, hd]
    · rfl
  · intro s c u fail
    rcases fail with _ | e
    · simp only [remove_dialogue, redisHdel]
      split <;> rfl
    · rfl

/-- Witness for C9 (amended): the one `set_alias` log line on the empty
database contains the chat id. -/
theorem log_line_per_operation_witness :
    (set_alias emptyStore 0 "a" "X" none).2.2.length = 1 ∧
    ∃ pre post, (set_alias emptyStore 0 "a" "X" none).2.2.headD "" =
      pre ++ i64_to_string 0 ++ post := by
  have hm : (set_alias emptyStore 0 "a" "X" none).2.2.headD "" ∈
      (set_alias emptyStore 0 "a" "X" none).2.2 := by
    simp [set_alias, redisHset]
  exact ⟨(log_line_per_operation.1 emptyStore 0 "a" "X" none).1,
    (log_line_per_operation.1 emptyStore 0 "a" "X" none).2 _ hm⟩
